import Mathlib

/-!
Verification of terraform-provider-corner: the default-object plan modifier, the user
resource and the regions data source.

A shallow embedding of

* `internal/framework6provider/object.go` (`DefaultObject`, `objectDefaultModifier.PlanModifyObject`),
* `internal/framework6provider/resource_user.go` (the `oidc_policy` default, `singleClientOIDCPolicy`,
  and the `Create`/`Read`/`Update`/`Delete` handlers of `resourceUser`),
* `internal/provider/data_source_regions.go` (`dataSourceRegionsRead`).

The host plugin framework and the in-memory backend are not part of these files.  What the
handlers use of them is either modelled after the host library's behaviour (values,
diagnostics, `types.ObjectValue`) or taken as a parameter (the backend client, the
plan/state codec, `schema.ResourceData`).
-/

set_option autoImplicit false

namespace Corner

/-! ## Go basics -/

/-- A Go `error` value: `none` is `nil`, `some msg` is an error whose `Error()` is `msg`. -/
abbrev error := Option String

/-- A Go slice: `none` is the `nil` slice, `some xs` a non-nil slice holding `xs`. -/
abbrev GoSlice (α : Type) := Option (List α)

/-- The elements a `for _, x := range s` loop visits (none for a `nil` slice). -/
def GoSlice.elems {α : Type} : GoSlice α → List α
  | none => []
  | some xs => xs

/-- Go `append(s, x)`: the result is never `nil`. -/
def GoSlice.append {α : Type} (s : GoSlice α) (x : α) : GoSlice α :=
  some (GoSlice.elems s ++ [x])

/-- A Go map with string keys, kept as an association list (first binding wins on lookup). -/
abbrev GoMap (β : Type) := List (String × β)

/-- The map index expression `v, ok := m[k]`. -/
def GoMap.get {β : Type} (m : GoMap β) (k : String) : Option β :=
  (m.find? (fun kv => kv.1 == k)).map Prod.snd

/-- The key set of a map, in listing order. -/
def GoMap.keys {β : Type} (m : GoMap β) : List String := m.map Prod.fst

/-! ## Diagnostics (host library `diag`) -/

/-- Severity of a diagnostic. -/
inductive Severity where
  | Error
  | Warning
  deriving DecidableEq, Repr

/-- One diagnostic: severity, summary and detail. -/
structure Diagnostic where
  Severity : Severity
  Summary : String
  Detail : String
  deriving DecidableEq, Repr

/-- A collection of diagnostics (`diag.Diagnostics`). -/
abbrev Diagnostics := List Diagnostic

/-- The method `Diagnostics.HasError`: some diagnostic has error severity. -/
def Diagnostics.HasError (diags : Diagnostics) : Bool :=
  diags.any (fun d => decide (d.Severity = Severity.Error))

/-- The method `Diagnostics.Contains`. -/
def Diagnostics.Contains (diags : Diagnostics) (d : Diagnostic) : Bool :=
  diags.any (fun e => decide (e = d))

/-- The framework method `Diagnostics.Append`: each incoming diagnostic is added at the end
unless an equal one is already present. -/
def Diagnostics.Append (diags : Diagnostics) (incoming : Diagnostics) : Diagnostics :=
  incoming.foldl (fun acc d => if Diagnostics.Contains acc d then acc else acc ++ [d]) diags

/-- The constructor `diag.NewErrorDiagnostic`. -/
def NewErrorDiagnostic (summary detail : String) : Diagnostic :=
  { Severity := Severity.Error, Summary := summary, Detail := detail }

/-- The framework method `Diagnostics.AddError(summary, detail)`. -/
def Diagnostics.AddError (diags : Diagnostics) (summary detail : String) : Diagnostics :=
  Diagnostics.Append diags [NewErrorDiagnostic summary detail]

/-! ## Attribute types and values (host library `attr`, `types`) -/

/-- The attribute types (`attr.Type`) that the provider's schemas mention. -/
inductive AttrType where
  | BoolType
  | StringType
  | NumberType
  | ListType (ElemType : AttrType)
  deriving DecidableEq, Repr

/-- The method `attr.Type.Equal`. -/
def AttrType.Equal (a b : AttrType) : Bool := decide (a = b)

namespace basetypes

/-- A framework boolean (`types.Bool`): null, unknown or a known Go bool. -/
inductive BoolValue where
  | Null
  | Unknown
  | Known (value : Bool)
  deriving DecidableEq, Repr

/-- A framework string (`types.String`): null, unknown or a known Go string. -/
inductive StringValue where
  | Null
  | Unknown
  | Known (value : String)
  deriving DecidableEq, Repr

/-- A framework number (`types.Number`); the payload is kept as an integer. -/
inductive NumberValue where
  | Null
  | Unknown
  | Known (value : Int)
  deriving DecidableEq, Repr

/-- The method `StringValue.IsUnknown`. -/
def StringValue.IsUnknown : StringValue → Bool
  | .Unknown => true
  | _ => false

/-- The method `StringValue.ValueString`: the known string, or `""` for null and unknown. -/
def StringValue.ValueString : StringValue → String
  | .Known s => s
  | _ => ""

end basetypes

/-- The attribute values (`attr.Value`) over `AttrType`. -/
inductive AttrValue where
  | BoolV (v : basetypes.BoolValue)
  | StringV (v : basetypes.StringValue)
  | NumberV (v : basetypes.NumberValue)
  | ListNull (elementType : AttrType)
  | ListUnknown (elementType : AttrType)
  | ListKnown (elementType : AttrType) (elements : List AttrValue)

/-- The method `attr.Value.Type`. -/
def AttrValue.Type : AttrValue → AttrType
  | .BoolV _ => AttrType.BoolType
  | .StringV _ => AttrType.StringType
  | .NumberV _ => AttrType.NumberType
  | .ListNull t => AttrType.ListType t
  | .ListUnknown t => AttrType.ListType t
  | .ListKnown t _ => AttrType.ListType t

namespace basetypes

/-- A framework object (`types.Object`): null or unknown of given attribute types, or a known
object with its attribute types and attribute values. -/
inductive ObjectValue where
  | Null (attributeTypes : GoMap AttrType)
  | Unknown (attributeTypes : GoMap AttrType)
  | Known (attributeTypes : GoMap AttrType) (attributes : GoMap AttrValue)

/-- The method `ObjectValue.IsNull`. -/
def ObjectValue.IsNull : ObjectValue → Bool
  | .Null _ => true
  | _ => false

/-- The method `ObjectValue.IsUnknown`. -/
def ObjectValue.IsUnknown : ObjectValue → Bool
  | .Unknown _ => true
  | _ => false

end basetypes

namespace types

/-- The constructor `types.BoolValue`. -/
def BoolValue (b : Bool) : basetypes.BoolValue := basetypes.BoolValue.Known b

/-- The constructor `types.StringNull`. -/
def StringNull : basetypes.StringValue := basetypes.StringValue.Null

/-- The constructor `types.StringValue`. -/
def StringValue (s : String) : basetypes.StringValue := basetypes.StringValue.Known s

/-- The constructor `types.ListNull`. -/
def ListNull (elementType : AttrType) : AttrValue := AttrValue.ListNull elementType

/-- The constructor `types.ObjectUnknown`. -/
def ObjectUnknown (attributeTypes : GoMap AttrType) : basetypes.ObjectValue :=
  basetypes.ObjectValue.Unknown attributeTypes

/-- The checks of `types.ObjectValue` on one declared attribute: its value must be present and
of the declared type. -/
def objectValueCheckDeclared (attributes : GoMap AttrValue) (entry : String × AttrType) :
    Diagnostics :=
  match GoMap.get attributes entry.1 with
  | none =>
    [NewErrorDiagnostic "Invalid Object Attribute Value" ("missing attribute value: " ++ entry.1)]
  | some value =>
    if AttrType.Equal entry.2 (AttrValue.Type value) then []
    else [NewErrorDiagnostic "Invalid Object Attribute Type" ("wrong attribute type: " ++ entry.1)]

/-- The check of `types.ObjectValue` on one given value: its name must be declared. -/
def objectValueCheckExtra (attributeTypes : GoMap AttrType) (entry : String × AttrValue) :
    Diagnostics :=
  match GoMap.get attributeTypes entry.1 with
  | none =>
    [NewErrorDiagnostic "Invalid Object Attribute Type" ("extra attribute value: " ++ entry.1)]
  | some _ => []

/-- The diagnostics `types.ObjectValue` collects: one error per declared attribute without a
value or with a value of another type, one per value without a declared attribute. -/
def objectValueDiags (attributeTypes : GoMap AttrType) (attributes : GoMap AttrValue) :
    Diagnostics :=
  Diagnostics.Append
    (Diagnostics.Append [] (attributeTypes.flatMap (objectValueCheckDeclared attributes)))
    (attributes.flatMap (objectValueCheckExtra attributeTypes))

/-- The host library's checked constructor `types.ObjectValue(attributeTypes, attributes)`:
with any error it returns the unknown object and the diagnostics, otherwise the known object
and no diagnostics.  The wording of the details is shortened, and the diagnostics come in the
listing order of the two maps (Go leaves the order of map iteration open). -/
def ObjectValue (attributeTypes : GoMap AttrType) (attributes : GoMap AttrValue) :
    basetypes.ObjectValue × Diagnostics :=
  let diags := objectValueDiags attributeTypes attributes
  if Diagnostics.HasError diags then (ObjectUnknown attributeTypes, diags)
  else (basetypes.ObjectValue.Known attributeTypes attributes, [])

end types

/-! ## `object.go` -/

/-- The struct `objectDefaultModifier`. -/
structure objectDefaultModifier where
  ElementType : GoMap AttrType
  Elements : GoMap AttrValue

/-- The function `DefaultObject`. -/
def DefaultObject (elementType : GoMap AttrType) (elements : GoMap AttrValue) :
    objectDefaultModifier :=
  { ElementType := elementType, Elements := elements }

namespace planmodifier

/-- The fields of `planmodifier.ObjectRequest` that hold values of the attribute. -/
structure ObjectRequest where
  ConfigValue : basetypes.ObjectValue
  PlanValue : basetypes.ObjectValue
  StateValue : basetypes.ObjectValue

/-- The struct `planmodifier.ObjectResponse`. -/
structure ObjectResponse where
  PlanValue : basetypes.ObjectValue
  RequiresReplace : Bool
  Diagnostics : Diagnostics

end planmodifier

/-- The method `objectDefaultModifier.PlanModifyObject`; the response is passed in and the
response after the call is returned. -/
def objectDefaultModifier.PlanModifyObject (m : objectDefaultModifier)
    (req : planmodifier.ObjectRequest) (resp : planmodifier.ObjectResponse) :
    planmodifier.ObjectResponse :=
  -- If the attribute configuration is not null, we are done here
  if !req.ConfigValue.IsNull then resp
  -- a known, non-null plan was set by an earlier modifier
  else if !req.PlanValue.IsUnknown && !req.PlanValue.IsNull then resp
  else
    let r := types.ObjectValue m.ElementType m.Elements
    { resp with PlanValue := r.1, Diagnostics := r.2 }

/-! ## `resource_user.go`: schema -/

/-- The plan modifiers `DefaultBool` and `DefaultString` named by `singleClientOIDCPolicy`;
only their arguments are recorded. -/
inductive PlanModifier where
  | DefaultBool (defaultValue : Bool)
  | DefaultString (defaultValue : String)
  deriving DecidableEq, Repr

namespace schema

/-- The schema attributes (`schema.Attribute`) used inside `oidc_policy`. -/
inductive Attribute where
  | BoolAttribute (Optional Computed : Bool) (PlanModifiers : List PlanModifier)
  | StringAttribute (Optional Computed : Bool) (PlanModifiers : List PlanModifier)
  | ListAttribute (Optional Computed : Bool) (ElementType : AttrType)
  deriving DecidableEq, Repr

/-- The method `Attribute.GetType`. -/
def Attribute.GetType : Attribute → AttrType
  | .BoolAttribute _ _ _ => AttrType.BoolType
  | .StringAttribute _ _ _ => AttrType.StringType
  | .ListAttribute _ _ t => AttrType.ListType t

end schema

/-- The plan modifier `DefaultObject(...)` that `resourceUser.Schema` puts on `oidc_policy`. -/
def oidcPolicyDefault : objectDefaultModifier :=
  DefaultObject
    [ ("grant_access_session_revocation_api", AttrType.BoolType),
      ("grant_access_session_session_management_api", AttrType.BoolType),
      ("pairwise_identifier_user_type", AttrType.BoolType),
      ("ping_access_logout_capable", AttrType.BoolType),
      ("id_token_content_encryption_algorithm", AttrType.StringType),
      ("id_token_encryption_algorithm", AttrType.StringType),
      ("id_token_signing_algorithm", AttrType.StringType),
      ("policy_group", AttrType.StringType),
      ("sector_identifier_uri", AttrType.StringType),
      ("logout_uris", AttrType.ListType AttrType.StringType) ]
    [ ("grant_access_session_revocation_api", AttrValue.BoolV (types.BoolValue false)),
      ("grant_access_session_session_management_api", AttrValue.BoolV (types.BoolValue false)),
      ("pairwise_identifier_user_type", AttrValue.BoolV (types.BoolValue false)),
      ("ping_access_logout_capable", AttrValue.BoolV (types.BoolValue false)),
      ("id_token_content_encryption_algorithm", AttrValue.StringV types.StringNull),
      ("id_token_encryption_algorithm", AttrValue.StringV types.StringNull),
      ("id_token_signing_algorithm", AttrValue.StringV types.StringNull),
      ("policy_group", AttrValue.StringV types.StringNull),
      ("sector_identifier_uri", AttrValue.StringV types.StringNull),
      ("logout_uris", types.ListNull AttrType.StringType) ]

/-- The function `singleClientOIDCPolicy`. -/
def singleClientOIDCPolicy : GoMap schema.Attribute :=
  [ ("grant_access_session_revocation_api",
      schema.Attribute.BoolAttribute true false [PlanModifier.DefaultBool false]),
    ("grant_access_session_session_management_api",
      schema.Attribute.BoolAttribute true true [PlanModifier.DefaultBool false]),
    ("id_token_content_encryption_algorithm", schema.Attribute.StringAttribute true false []),
    ("id_token_encryption_algorithm", schema.Attribute.StringAttribute true false []),
    ("id_token_signing_algorithm",
      schema.Attribute.StringAttribute true true [PlanModifier.DefaultString "RS256"]),
    ("logout_uris", schema.Attribute.ListAttribute true false AttrType.StringType),
    ("pairwise_identifier_user_type",
      schema.Attribute.BoolAttribute true true [PlanModifier.DefaultBool false]),
    ("ping_access_logout_capable", schema.Attribute.BoolAttribute true false []),
    ("policy_group", schema.Attribute.StringAttribute true false []),
    ("sector_identifier_uri", schema.Attribute.StringAttribute true false []) ]

/-! ## `resource_user.go`: data -/

/-- The struct `ClientOIDCPolicyData`. -/
structure ClientOIDCPolicyData where
  GrantAccessSessionRevocationApi : basetypes.BoolValue
  GrantAccessSessionSessionManagementApi : basetypes.BoolValue
  IdTokenContentEncryptionAlgorithm : basetypes.StringValue
  IdTokenEncryptionAlgorithm : basetypes.StringValue
  IdTokenSigningAlgorithm : basetypes.StringValue
  LogoutUris : GoSlice basetypes.StringValue
  PairwiseIdentifierUserType : basetypes.BoolValue
  PingAccessLogoutCapable : basetypes.BoolValue
  PolicyGroup : basetypes.StringValue
  SectorIdentifierUri : basetypes.StringValue
  deriving DecidableEq, Repr

/-- The struct `user`; `OidcPolicy` is a pointer, `none` being `nil`. -/
structure user where
  Email : String
  Name : String
  Age : Int
  Id : String
  DateJoined : basetypes.StringValue
  Language : basetypes.StringValue
  OidcPolicy : Option ClientOIDCPolicyData
  deriving DecidableEq, Repr

namespace backend

/-- The backend record `backend.User`, with the fields the handlers read and write. -/
structure User where
  Email : String
  Name : String
  Age : Int
  DateJoined : String
  Language : String
  deriving DecidableEq, Repr

/-- One call on the backend client, with its argument. -/
inductive Call where
  | CreateUser (u : User)
  | ReadUser (email : String)
  | UpdateUser (u : User)
  | DeleteUser (u : User)
  deriving DecidableEq, Repr

/-- The backend client `backend.Client` over a store `σ`: each method takes the store and
returns its results and the store afterwards.  The Go methods take a `*User`; here the record
is handed over by value, so a backend that writes through the pointer is not represented. -/
structure Client (σ : Type) where
  CreateUser : User → σ → error × σ
  ReadUser : String → σ → (Option User × error) × σ
  UpdateUser : User → σ → error × σ
  DeleteUser : User → σ → error × σ

end backend

namespace tfsdk

/-- What the handlers use of the host's `tfsdk.Plan` and `tfsdk.State` over raw data `Raw`:
`Get` decodes raw data into a `user`, `Set` encodes a `user` into a state. -/
structure Codec (Raw : Type) where
  Get : Raw → Diagnostics × user
  Set : Raw → user → Diagnostics × Raw

end tfsdk

namespace resource

/-- The struct `resource.CreateRequest`. -/
structure CreateRequest (Raw : Type) where
  Plan : Raw

/-- The struct `resource.ReadRequest`. -/
structure ReadRequest (Raw : Type) where
  State : Raw

/-- The struct `resource.UpdateRequest`. -/
structure UpdateRequest (Raw : Type) where
  Plan : Raw
  State : Raw

/-- The struct `resource.DeleteRequest`. -/
structure DeleteRequest (Raw : Type) where
  State : Raw

/-- The fields `State` and `Diagnostics` shared by `resource.CreateResponse`,
`ReadResponse`, `UpdateResponse` and `DeleteResponse`. -/
structure Response (Raw : Type) where
  State : Raw
  Diagnostics : Diagnostics

end resource

/-- What a handler leaves behind: the response, the backend store, and the backend calls it
made, in order. -/
structure Outcome (Raw σ : Type) where
  resp : resource.Response Raw
  store : σ
  calls : List backend.Call

/-! ## `resource_user.go`: handlers -/

/-- The `backend.User` that `Create` and `Update` build from the decoded plan. -/
def newUserOf (plan : user) : backend.User :=
  let newUser : backend.User :=
    { Email := plan.Email, Name := plan.Name, Age := plan.Age, DateJoined := "", Language := "" }
  if !plan.Language.IsUnknown then { newUser with Language := plan.Language.ValueString }
  else newUser

/-- The method `resourceUser.Create`. -/
def resourceUser.Create {Raw σ : Type} (fw : tfsdk.Codec Raw) (client : backend.Client σ)
    (s : σ) (req : resource.CreateRequest Raw) (resp : resource.Response Raw) :
    Outcome Raw σ :=
  let got := fw.Get req.Plan
  let plan := got.2
  let resp := { resp with Diagnostics := resp.Diagnostics.Append got.1 }
  if resp.Diagnostics.HasError then { resp := resp, store := s, calls := [] }
  else
    let newUser := newUserOf plan
    match client.CreateUser newUser s with
    | (some err, s1) =>
      { resp := { resp with Diagnostics := resp.Diagnostics.AddError "Error creating user" err },
        store := s1, calls := [backend.Call.CreateUser newUser] }
    | (none, s1) =>
      match client.ReadUser newUser.Email s1 with
      | ((_, some err), s2) =>
        { resp := { resp with Diagnostics := resp.Diagnostics.AddError "Error reading user" err },
          store := s2,
          calls := [backend.Call.CreateUser newUser, backend.Call.ReadUser newUser.Email] }
      | ((none, none), s2) =>
        { resp := { resp with
            Diagnostics := resp.Diagnostics.AddError "Error reading user"
              "could not find user after it was created" },
          store := s2,
          calls := [backend.Call.CreateUser newUser, backend.Call.ReadUser newUser.Email] }
      | ((some p, none), s2) =>
        let plan := { plan with
          DateJoined := types.StringValue p.DateJoined, Language := types.StringValue p.Language }
        let set := fw.Set resp.State plan
        { resp := { State := set.2, Diagnostics := resp.Diagnostics.Append set.1 },
          store := s2,
          calls := [backend.Call.CreateUser newUser, backend.Call.ReadUser newUser.Email] }

/-- The method `resourceUser.Read`. -/
def resourceUser.Read {Raw σ : Type} (fw : tfsdk.Codec Raw) (client : backend.Client σ)
    (s : σ) (req : resource.ReadRequest Raw) (resp : resource.Response Raw) :
    Outcome Raw σ :=
  let got := fw.Get req.State
  let state := got.2
  let resp := { resp with Diagnostics := resp.Diagnostics.Append got.1 }
  if resp.Diagnostics.HasError then { resp := resp, store := s, calls := [] }
  else
    match client.ReadUser state.Email s with
    | ((_, some err), s1) =>
      { resp := { resp with Diagnostics := resp.Diagnostics.AddError "Error reading user" err },
        store := s1, calls := [backend.Call.ReadUser state.Email] }
    | ((none, none), s1) =>
      { resp := resp, store := s1, calls := [backend.Call.ReadUser state.Email] }
    | ((some p, none), s1) =>
      let state' := { state with
        Name := p.Name, Age := p.Age,
        DateJoined := types.StringValue p.DateJoined, Language := types.StringValue p.Language }
      let set := fw.Set resp.State state'
      { resp := { State := set.2, Diagnostics := resp.Diagnostics.Append set.1 },
        store := s1, calls := [backend.Call.ReadUser state.Email] }

/-- The method `resourceUser.Update`. -/
def resourceUser.Update {Raw σ : Type} (fw : tfsdk.Codec Raw) (client : backend.Client σ)
    (s : σ) (req : resource.UpdateRequest Raw) (resp : resource.Response Raw) :
    Outcome Raw σ :=
  let got := fw.Get req.Plan
  let plan := got.2
  let resp := { resp with Diagnostics := resp.Diagnostics.Append got.1 }
  if resp.Diagnostics.HasError then { resp := resp, store := s, calls := [] }
  else
    let newUser := newUserOf plan
    match client.UpdateUser newUser s with
    | (some err, s1) =>
      { resp := { resp with Diagnostics := resp.Diagnostics.AddError "Error updating user" err },
        store := s1, calls := [backend.Call.UpdateUser newUser] }
    | (none, s1) =>
      let set := fw.Set resp.State plan
      { resp := { State := set.2, Diagnostics := resp.Diagnostics.Append set.1 },
        store := s1, calls := [backend.Call.UpdateUser newUser] }

/-- The method `resourceUser.Delete`. -/
def resourceUser.Delete {Raw σ : Type} (fw : tfsdk.Codec Raw) (client : backend.Client σ)
    (s : σ) (req : resource.DeleteRequest Raw) (resp : resource.Response Raw) :
    Outcome Raw σ :=
  let got := fw.Get req.State
  let state := got.2
  let resp := { resp with Diagnostics := resp.Diagnostics.Append got.1 }
  if resp.Diagnostics.HasError then { resp := resp, store := s, calls := [] }
  else
    let userToDelete : backend.User :=
      { Email := state.Email, Name := state.Name, Age := state.Age,
        DateJoined := "", Language := "" }
    match client.DeleteUser userToDelete s with
    | (some err, s1) =>
      { resp := { resp with Diagnostics := resp.Diagnostics.AddError "Error deleting user" err },
        store := s1, calls := [backend.Call.DeleteUser userToDelete] }
    | (none, s1) =>
      { resp := resp, store := s1, calls := [backend.Call.DeleteUser userToDelete] }

/-! ## `data_source_regions.go` -/

/-- A region of the backend; the data source reads its `Name`. -/
structure Region where
  Name : String
  deriving DecidableEq, Repr

namespace diag

/-- The SDK function `diag.FromErr`: no diagnostics for `nil`, else one error diagnostic whose
summary is the error's message. -/
def FromErr (err : error) : Diagnostics :=
  match err with
  | none => []
  | some msg => [{ Severity := Severity.Error, Summary := msg, Detail := "" }]

end diag

namespace schema

/-- What the data source uses of the SDK's `schema.ResourceData` over a carrier `D`: `SetId`,
and `Set` of a string-slice attribute. -/
structure ResourceData (D : Type) where
  SetId : D → String → D
  Set : D → String → GoSlice String → D × error

end schema

/-- The loop over `regions` that appends each `r.Name` to `names`, started from the empty
non-nil slice. -/
def regionNames (regions : GoSlice Region) : GoSlice String :=
  (GoSlice.elems regions).foldl (fun names r => GoSlice.append names r.Name) (some [])

/-- The function `dataSourceRegionsRead`: `ReadRegions` is the client method, `d` the resource
data on entry; returned are the diagnostics, the resource data and the store afterwards. -/
def dataSourceRegionsRead {D σ : Type} (rd : schema.ResourceData D)
    (ReadRegions : σ → (GoSlice Region × error) × σ) (s : σ) (d : D) :
    Diagnostics × D × σ :=
  match ReadRegions s with
  | ((_, some err), s1) => (diag.FromErr (some err), d, s1)
  | ((regions, none), s1) =>
    let names := regionNames regions
    let d := rd.SetId d "regions"
    let set := rd.Set d "names" names
    match set.2 with
    | some err => (diag.FromErr (some err), set.1, s1)
    | none => ([], set.1, s1)

/-! ## Sample inputs -/

/-- A one-attribute default: attribute `enabled`, a bool, false by default. -/
def sampleModifier : objectDefaultModifier :=
  DefaultObject [("enabled", AttrType.BoolType)]
    [("enabled", AttrValue.BoolV (types.BoolValue false))]

/-- A known object for `sampleModifier` with `enabled` true. -/
def sampleKnownObject : basetypes.ObjectValue :=
  basetypes.ObjectValue.Known [("enabled", AttrType.BoolType)]
    [("enabled", AttrValue.BoolV (types.BoolValue true))]

/-- A request with null configuration and a plan that is already known. -/
def sampleKnownPlanRequest : planmodifier.ObjectRequest :=
  { ConfigValue := basetypes.ObjectValue.Null [("enabled", AttrType.BoolType)],
    PlanValue := sampleKnownObject,
    StateValue := basetypes.ObjectValue.Null [("enabled", AttrType.BoolType)] }

/-- A request with null configuration and an unknown plan. -/
def sampleUnknownPlanRequest : planmodifier.ObjectRequest :=
  { ConfigValue := basetypes.ObjectValue.Null [("enabled", AttrType.BoolType)],
    PlanValue := basetypes.ObjectValue.Unknown [("enabled", AttrType.BoolType)],
    StateValue := basetypes.ObjectValue.Null [("enabled", AttrType.BoolType)] }

/-- The response as the host hands it over: the plan value of the request, no diagnostics. -/
def responseFor (req : planmodifier.ObjectRequest) : planmodifier.ObjectResponse :=
  { PlanValue := req.PlanValue, RequiresReplace := false, Diagnostics := [] }

/-- A sample codec over `Option user`: raw data is either null (`none`) or holds a `user`;
decoding null reports an error, encoding always succeeds. -/
def sampleCodec : tfsdk.Codec (Option user) :=
  { Get := fun raw =>
      match raw with
      | none =>
        ([NewErrorDiagnostic "Value Conversion Error" "unhandled null value"],
          { Email := "", Name := "", Age := 0, Id := "",
            DateJoined := basetypes.StringValue.Null, Language := basetypes.StringValue.Null,
            OidcPolicy := none })
      | some u => ([], u),
    Set := fun _ u => ([], some u) }

/-- A sample in-memory backend over a list of users: creating stamps a join date and the
language `en` when none is given, reading looks the email up, updating and deleting succeed. -/
def sampleClient : backend.Client (List backend.User) :=
  { CreateUser := fun u st =>
      if st.any (fun v => v.Email == u.Email) then (some "user already exists", st)
      else
        (none, st ++ [{ u with
          DateJoined := "2021-01-01",
          Language := if u.Language == "" then "en" else u.Language }]),
    ReadUser := fun email st => ((st.find? (fun v => v.Email == email), none), st),
    UpdateUser := fun u st =>
      (none, st.map (fun v => if v.Email == u.Email then { u with DateJoined := v.DateJoined } else v)),
    DeleteUser := fun u st => (none, st.filter (fun v => !(v.Email == u.Email))) }

/-- A sample backend every call of which fails with the message `backend down`. -/
def failingClient : backend.Client (List backend.User) :=
  { CreateUser := fun _ st => (some "backend down", st),
    ReadUser := fun _ st => ((none, some "backend down"), st),
    UpdateUser := fun _ st => (some "backend down", st),
    DeleteUser := fun _ st => (some "backend down", st) }

/-- A sample backend whose `CreateUser` succeeds and whose `ReadUser` fails with the message
`backend down`. -/
def readFailingClient : backend.Client (List backend.User) :=
  { CreateUser := fun u st => (none, st ++ [u]),
    ReadUser := fun _ st => ((none, some "backend down"), st),
    UpdateUser := fun _ st => (none, st),
    DeleteUser := fun _ st => (none, st) }

/-- A sample backend that creates without storing: `CreateUser` succeeds and `ReadUser` finds
nothing. -/
def forgetfulClient : backend.Client (List backend.User) :=
  { CreateUser := fun _ st => (none, st),
    ReadUser := fun _ st => ((none, none), st),
    UpdateUser := fun _ st => (none, st),
    DeleteUser := fun _ st => (none, st) }

/-- The plan of the acceptance test `TestAccResourceUser1`: age 123, email
`example@example.com`, id `h`, name `Example Name`; the computed attributes are unknown. -/
def samplePlan : user :=
  { Email := "example@example.com", Name := "Example Name", Age := 123, Id := "h",
    DateJoined := basetypes.StringValue.Unknown, Language := basetypes.StringValue.Unknown,
    OidcPolicy := none }

/-- The user the sample backend holds after `samplePlan` was created. -/
def sampleStored : backend.User :=
  { Email := "example@example.com", Name := "Example Name", Age := 123,
    DateJoined := "2021-01-01", Language := "en" }

/-- The state after `samplePlan` was created. -/
def sampleState : user :=
  { Email := "example@example.com", Name := "Example Name", Age := 123, Id := "h",
    DateJoined := basetypes.StringValue.Known "2021-01-01",
    Language := basetypes.StringValue.Known "en", OidcPolicy := none }

/-- The stored user after a change made behind the provider: new name, age and language. -/
def sampleChanged : backend.User :=
  { Email := "example@example.com", Name := "Other Name", Age := 124,
    DateJoined := "2021-01-01", Language := "fr" }

/-- The state `Read` writes when the backend holds `sampleChanged`. -/
def sampleRefreshed : user :=
  { Email := "example@example.com", Name := "Other Name", Age := 124, Id := "h",
    DateJoined := basetypes.StringValue.Known "2021-01-01",
    Language := basetypes.StringValue.Known "fr", OidcPolicy := none }

/-- A response as the host hands it over: the given state and no diagnostics. -/
def freshResponse (state : Option user) : resource.Response (Option user) :=
  { State := state, Diagnostics := [] }

/-- A sample `schema.ResourceData` over a pair of id and `names` attribute; setting succeeds
for the key `names` and fails for any other key. -/
def sampleResourceData : schema.ResourceData (String × Option (GoSlice String)) :=
  { SetId := fun d id => (id, d.2),
    Set := fun d key value =>
      if key == "names" then ((d.1, some value), none)
      else (d, some "Invalid address to set") }

/-- A sample `ReadRegions` returning the stored regions. -/
def sampleReadRegions (st : List Region) : (GoSlice Region × error) × List Region :=
  ((some st, none), st)

/-- A sample `ReadRegions` that fails. -/
def failingReadRegions (st : List Region) : (GoSlice Region × error) × List Region :=
  ((none, some "backend down"), st)

/-! ## `object.go`: theorems -/

/-- C1: if the configuration value is not null, or the plan value is both known and not null,
`PlanModifyObject` returns the response it was given, so `PlanValue` and `Diagnostics` (and
`RequiresReplace`) are as before the call. -/
theorem PlanModifyObject_leaves_response (m : objectDefaultModifier)
    (req : planmodifier.ObjectRequest) (resp : planmodifier.ObjectResponse)
    (h : req.ConfigValue.IsNull = false ∨
      (req.PlanValue.IsUnknown = false ∧ req.PlanValue.IsNull = false)) :
    m.PlanModifyObject req resp = resp := by
  unfold objectDefaultModifier.PlanModifyObject
  rcases h with h | ⟨hu, hn⟩
  · simp [h]
  · simp [hu, hn]

/-- Witness of C1 on a request whose plan is known and not null. -/
theorem PlanModifyObject_leaves_response_witness :
    (sampleKnownPlanRequest.ConfigValue.IsNull = false ∨
      (sampleKnownPlanRequest.PlanValue.IsUnknown = false ∧
        sampleKnownPlanRequest.PlanValue.IsNull = false)) ∧
    sampleModifier.PlanModifyObject sampleKnownPlanRequest (responseFor sampleKnownPlanRequest)
      = responseFor sampleKnownPlanRequest :=
  ⟨Or.inr ⟨rfl, rfl⟩,
   PlanModifyObject_leaves_response sampleModifier sampleKnownPlanRequest
    (responseFor sampleKnownPlanRequest) (Or.inr ⟨rfl, rfl⟩)⟩

/-- C2: if the configuration value is null and the plan value is unknown or null,
`PlanModifyObject` sets `resp.PlanValue` to the object built by
`types.ObjectValue(m.ElementType, m.Elements)` and `resp.Diagnostics` to the diagnostics of that
construction. -/
theorem PlanModifyObject_sets_default (m : objectDefaultModifier)
    (req : planmodifier.ObjectRequest) (resp : planmodifier.ObjectResponse)
    (hc : req.ConfigValue.IsNull = true)
    (hp : req.PlanValue.IsUnknown = true ∨ req.PlanValue.IsNull = true) :
    (m.PlanModifyObject req resp).PlanValue = (types.ObjectValue m.ElementType m.Elements).1 ∧
    (m.PlanModifyObject req resp).Diagnostics = (types.ObjectValue m.ElementType m.Elements).2 := by
  unfold objectDefaultModifier.PlanModifyObject
  rcases hp with hp | hp <;> simp [hc, hp]

/-- Witness of C2 on a request with null configuration and an unknown plan: the plan becomes
the known default object and the diagnostics are empty. -/
theorem PlanModifyObject_sets_default_witness :
    (sampleModifier.PlanModifyObject sampleUnknownPlanRequest
        (responseFor sampleUnknownPlanRequest)).PlanValue
      = basetypes.ObjectValue.Known [("enabled", AttrType.BoolType)]
          [("enabled", AttrValue.BoolV (basetypes.BoolValue.Known false))] ∧
    (sampleModifier.PlanModifyObject sampleUnknownPlanRequest
        (responseFor sampleUnknownPlanRequest)).Diagnostics = [] :=
  PlanModifyObject_sets_default sampleModifier sampleUnknownPlanRequest
    (responseFor sampleUnknownPlanRequest) rfl (Or.inl rfl)

/-- C3, as stated, fails: on a request whose plan value is known and not null the response keeps
that plan value, which is not the default object. -/
theorem PlanModifyObject_not_null_plan_kept :
    sampleKnownPlanRequest.PlanValue.IsNull = false ∧
    (sampleModifier.PlanModifyObject sampleKnownPlanRequest
        (responseFor sampleKnownPlanRequest)).PlanValue = sampleKnownObject ∧
    (sampleModifier.PlanModifyObject sampleKnownPlanRequest
        (responseFor sampleKnownPlanRequest)).PlanValue
      ≠ (types.ObjectValue sampleModifier.ElementType sampleModifier.Elements).1 := by
  refine ⟨rfl, rfl, ?_⟩
  intro h
  have h2 : sampleKnownObject = basetypes.ObjectValue.Known [("enabled", AttrType.BoolType)]
      [("enabled", AttrValue.BoolV (types.BoolValue false))] := h
  simp [sampleKnownObject, types.BoolValue] at h2

/-- C3, amended: for a request whose plan value is not null, the plan value after the call is
the object built by `types.ObjectValue(m.ElementType, m.Elements)` when the configuration is
null and the plan value is unknown, and the plan value of the response as given otherwise. -/
theorem PlanModifyObject_not_null_plan (m : objectDefaultModifier)
    (req : planmodifier.ObjectRequest) (resp : planmodifier.ObjectResponse)
    (hn : req.PlanValue.IsNull = false) :
    (m.PlanModifyObject req resp).PlanValue =
      if req.ConfigValue.IsNull && req.PlanValue.IsUnknown
      then (types.ObjectValue m.ElementType m.Elements).1 else resp.PlanValue := by
  unfold objectDefaultModifier.PlanModifyObject
  cases hc : req.ConfigValue.IsNull <;> cases hu : req.PlanValue.IsUnknown <;> simp [hn]

/-- Witness of the amended C3 on a request with null configuration and an unknown plan. -/
theorem PlanModifyObject_not_null_plan_witness :
    sampleUnknownPlanRequest.PlanValue.IsNull = false ∧
    (sampleModifier.PlanModifyObject sampleUnknownPlanRequest
        (responseFor sampleUnknownPlanRequest)).PlanValue
      = basetypes.ObjectValue.Known [("enabled", AttrType.BoolType)]
          [("enabled", AttrValue.BoolV (types.BoolValue false))] :=
  ⟨rfl, PlanModifyObject_not_null_plan sampleModifier sampleUnknownPlanRequest
    (responseFor sampleUnknownPlanRequest) rfl⟩


/-! ## Diagnostics: lemmas -/

theorem HasError_append_list (a b : Diagnostics) :
    Diagnostics.HasError (a ++ b) = (Diagnostics.HasError a || Diagnostics.HasError b) := by
  simp [Diagnostics.HasError, List.any_append]

theorem Contains_iff_mem (a : Diagnostics) (d : Diagnostic) :
    Diagnostics.Contains a d = true ↔ d ∈ a := by
  simp [Diagnostics.Contains]

theorem HasError_of_mem (a : Diagnostics) (d : Diagnostic) (hd : d ∈ a)
    (he : d.Severity = Severity.Error) : Diagnostics.HasError a = true := by
  simp only [Diagnostics.HasError, List.any_eq_true, decide_eq_true_eq]
  exact ⟨d, hd, he⟩

theorem Append_nil (a : Diagnostics) : Diagnostics.Append a [] = a := rfl

theorem Append_cons (a : Diagnostics) (d : Diagnostic) (b : Diagnostics) :
    Diagnostics.Append a (d :: b) =
      Diagnostics.Append (if Diagnostics.Contains a d then a else a ++ [d]) b := rfl

theorem HasError_Append (a b : Diagnostics) :
    Diagnostics.HasError (Diagnostics.Append a b)
      = (Diagnostics.HasError a || Diagnostics.HasError b) := by
  induction b generalizing a with
  | nil => simp [Append_nil, Diagnostics.HasError]
  | cons d rest ih =>
    rw [Append_cons, ih]
    by_cases hc : Diagnostics.Contains a d = true
    · simp only [hc, if_true]
      by_cases he : d.Severity = Severity.Error
      · have := HasError_of_mem a d ((Contains_iff_mem a d).1 hc) he
        simp [this]
      · simp [Diagnostics.HasError, he]
    · have hc2 : Diagnostics.Contains a d = false := by simpa using hc
      simp only [hc2, Bool.false_eq_true, if_false]
      rw [HasError_append_list]
      simp [Diagnostics.HasError, Bool.or_assoc]

theorem mem_AddError (a : Diagnostics) (summary detail : String) :
    NewErrorDiagnostic summary detail ∈ Diagnostics.AddError a summary detail := by
  unfold Diagnostics.AddError
  rw [Append_cons, Append_nil]
  split
  · rename_i h
    exact (Contains_iff_mem _ _).1 h
  · simp

theorem HasError_AddError (a : Diagnostics) (summary detail : String) :
    Diagnostics.HasError (Diagnostics.AddError a summary detail) = true :=
  HasError_of_mem _ _ (mem_AddError a summary detail) rfl

/-! ## Handlers: one equation per path -/

theorem Create_createUser_failed {Raw σ : Type} (fw : tfsdk.Codec Raw)
    (client : backend.Client σ) (s s1 : σ) (req : resource.CreateRequest Raw)
    (resp : resource.Response Raw) (msg : String)
    (hentry : (resp.Diagnostics.Append (fw.Get req.Plan).1).HasError = false)
    (hcreate : client.CreateUser (newUserOf (fw.Get req.Plan).2) s = (some msg, s1)) :
    resourceUser.Create fw client s req resp =
      { resp := { resp with
          Diagnostics := (resp.Diagnostics.Append (fw.Get req.Plan).1).AddError
            "Error creating user" msg },
        store := s1,
        calls := [backend.Call.CreateUser (newUserOf (fw.Get req.Plan).2)] } := by
  unfold resourceUser.Create
  simp [hentry, hcreate]

theorem Create_readUser_failed {Raw σ : Type} (fw : tfsdk.Codec Raw)
    (client : backend.Client σ) (s s1 s2 : σ) (req : resource.CreateRequest Raw)
    (resp : resource.Response Raw) (p : Option backend.User) (msg : String)
    (hentry : (resp.Diagnostics.Append (fw.Get req.Plan).1).HasError = false)
    (hcreate : client.CreateUser (newUserOf (fw.Get req.Plan).2) s = (none, s1))
    (hread : client.ReadUser (newUserOf (fw.Get req.Plan).2).Email s1 = ((p, some msg), s2)) :
    resourceUser.Create fw client s req resp =
      { resp := { resp with
          Diagnostics := (resp.Diagnostics.Append (fw.Get req.Plan).1).AddError
            "Error reading user" msg },
        store := s2,
        calls := [backend.Call.CreateUser (newUserOf (fw.Get req.Plan).2),
          backend.Call.ReadUser (newUserOf (fw.Get req.Plan).2).Email] } := by
  unfold resourceUser.Create
  simp [hentry, hcreate, hread]

theorem Create_user_not_found {Raw σ : Type} (fw : tfsdk.Codec Raw)
    (client : backend.Client σ) (s s1 s2 : σ) (req : resource.CreateRequest Raw)
    (resp : resource.Response Raw)
    (hentry : (resp.Diagnostics.Append (fw.Get req.Plan).1).HasError = false)
    (hcreate : client.CreateUser (newUserOf (fw.Get req.Plan).2) s = (none, s1))
    (hread : client.ReadUser (newUserOf (fw.Get req.Plan).2).Email s1 = ((none, none), s2)) :
    resourceUser.Create fw client s req resp =
      { resp := { resp with
          Diagnostics := (resp.Diagnostics.Append (fw.Get req.Plan).1).AddError
            "Error reading user" "could not find user after it was created" },
        store := s2,
        calls := [backend.Call.CreateUser (newUserOf (fw.Get req.Plan).2),
          backend.Call.ReadUser (newUserOf (fw.Get req.Plan).2).Email] } := by
  unfold resourceUser.Create
  simp [hentry, hcreate, hread]

theorem Create_succeeded {Raw σ : Type} (fw : tfsdk.Codec Raw)
    (client : backend.Client σ) (s s1 s2 : σ) (req : resource.CreateRequest Raw)
    (resp : resource.Response Raw) (p : backend.User)
    (hentry : (resp.Diagnostics.Append (fw.Get req.Plan).1).HasError = false)
    (hcreate : client.CreateUser (newUserOf (fw.Get req.Plan).2) s = (none, s1))
    (hread : client.ReadUser (newUserOf (fw.Get req.Plan).2).Email s1 = ((some p, none), s2)) :
    resourceUser.Create fw client s req resp =
      { resp :=
          { State := (fw.Set resp.State { (fw.Get req.Plan).2 with
              DateJoined := types.StringValue p.DateJoined,
              Language := types.StringValue p.Language }).2,
            Diagnostics := (resp.Diagnostics.Append (fw.Get req.Plan).1).Append
              (fw.Set resp.State { (fw.Get req.Plan).2 with
                DateJoined := types.StringValue p.DateJoined,
                Language := types.StringValue p.Language }).1 },
        store := s2,
        calls := [backend.Call.CreateUser (newUserOf (fw.Get req.Plan).2),
          backend.Call.ReadUser (newUserOf (fw.Get req.Plan).2).Email] } := by
  unfold resourceUser.Create
  simp [hentry, hcreate, hread]

theorem Read_readUser_failed {Raw σ : Type} (fw : tfsdk.Codec Raw)
    (client : backend.Client σ) (s s1 : σ) (req : resource.ReadRequest Raw)
    (resp : resource.Response Raw) (p : Option backend.User) (msg : String)
    (hentry : (resp.Diagnostics.Append (fw.Get req.State).1).HasError = false)
    (hread : client.ReadUser (fw.Get req.State).2.Email s = ((p, some msg), s1)) :
    resourceUser.Read fw client s req resp =
      { resp := { resp with
          Diagnostics := (resp.Diagnostics.Append (fw.Get req.State).1).AddError
            "Error reading user" msg },
        store := s1,
        calls := [backend.Call.ReadUser (fw.Get req.State).2.Email] } := by
  unfold resourceUser.Read
  simp [hentry, hread]

theorem Read_user_not_found {Raw σ : Type} (fw : tfsdk.Codec Raw)
    (client : backend.Client σ) (s s1 : σ) (req : resource.ReadRequest Raw)
    (resp : resource.Response Raw)
    (hentry : (resp.Diagnostics.Append (fw.Get req.State).1).HasError = false)
    (hread : client.ReadUser (fw.Get req.State).2.Email s = ((none, none), s1)) :
    resourceUser.Read fw client s req resp =
      { resp := { resp with Diagnostics := resp.Diagnostics.Append (fw.Get req.State).1 },
        store := s1,
        calls := [backend.Call.ReadUser (fw.Get req.State).2.Email] } := by
  unfold resourceUser.Read
  simp [hentry, hread]

theorem Read_succeeded {Raw σ : Type} (fw : tfsdk.Codec Raw)
    (client : backend.Client σ) (s s1 : σ) (req : resource.ReadRequest Raw)
    (resp : resource.Response Raw) (p : backend.User)
    (hentry : (resp.Diagnostics.Append (fw.Get req.State).1).HasError = false)
    (hread : client.ReadUser (fw.Get req.State).2.Email s = ((some p, none), s1)) :
    resourceUser.Read fw client s req resp =
      { resp :=
          { State := (fw.Set resp.State { (fw.Get req.State).2 with
              Name := p.Name, Age := p.Age,
              DateJoined := types.StringValue p.DateJoined,
              Language := types.StringValue p.Language }).2,
            Diagnostics := (resp.Diagnostics.Append (fw.Get req.State).1).Append
              (fw.Set resp.State { (fw.Get req.State).2 with
                Name := p.Name, Age := p.Age,
                DateJoined := types.StringValue p.DateJoined,
                Language := types.StringValue p.Language }).1 },
        store := s1,
        calls := [backend.Call.ReadUser (fw.Get req.State).2.Email] } := by
  unfold resourceUser.Read
  simp [hentry, hread]

theorem Update_updateUser_failed {Raw σ : Type} (fw : tfsdk.Codec Raw)
    (client : backend.Client σ) (s s1 : σ) (req : resource.UpdateRequest Raw)
    (resp : resource.Response Raw) (msg : String)
    (hentry : (resp.Diagnostics.Append (fw.Get req.Plan).1).HasError = false)
    (hupdate : client.UpdateUser (newUserOf (fw.Get req.Plan).2) s = (some msg, s1)) :
    resourceUser.Update fw client s req resp =
      { resp := { resp with
          Diagnostics := (resp.Diagnostics.Append (fw.Get req.Plan).1).AddError
            "Error updating user" msg },
        store := s1,
        calls := [backend.Call.UpdateUser (newUserOf (fw.Get req.Plan).2)] } := by
  unfold resourceUser.Update
  simp [hentry, hupdate]

theorem Update_succeeded {Raw σ : Type} (fw : tfsdk.Codec Raw)
    (client : backend.Client σ) (s s1 : σ) (req : resource.UpdateRequest Raw)
    (resp : resource.Response Raw)
    (hentry : (resp.Diagnostics.Append (fw.Get req.Plan).1).HasError = false)
    (hupdate : client.UpdateUser (newUserOf (fw.Get req.Plan).2) s = (none, s1)) :
    resourceUser.Update fw client s req resp =
      { resp :=
          { State := (fw.Set resp.State (fw.Get req.Plan).2).2,
            Diagnostics := (resp.Diagnostics.Append (fw.Get req.Plan).1).Append
              (fw.Set resp.State (fw.Get req.Plan).2).1 },
        store := s1,
        calls := [backend.Call.UpdateUser (newUserOf (fw.Get req.Plan).2)] } := by
  unfold resourceUser.Update
  simp [hentry, hupdate]

theorem Delete_deleteUser_failed {Raw σ : Type} (fw : tfsdk.Codec Raw)
    (client : backend.Client σ) (s s1 : σ) (req : resource.DeleteRequest Raw)
    (resp : resource.Response Raw) (msg : String)
    (hentry : (resp.Diagnostics.Append (fw.Get req.State).1).HasError = false)
    (hdelete : client.DeleteUser
      { Email := (fw.Get req.State).2.Email, Name := (fw.Get req.State).2.Name,
        Age := (fw.Get req.State).2.Age, DateJoined := "", Language := "" } s = (some msg, s1)) :
    resourceUser.Delete fw client s req resp =
      { resp := { resp with
          Diagnostics := (resp.Diagnostics.Append (fw.Get req.State).1).AddError
            "Error deleting user" msg },
        store := s1,
        calls := [backend.Call.DeleteUser
          { Email := (fw.Get req.State).2.Email, Name := (fw.Get req.State).2.Name,
            Age := (fw.Get req.State).2.Age, DateJoined := "", Language := "" }] } := by
  unfold resourceUser.Delete
  simp [hentry, hdelete]

theorem entry_ok (a b : Diagnostics) (ha : a.HasError = false) (hb : b.HasError = false) :
    (a.Append b).HasError = false := by
  rw [HasError_Append, ha, hb]; rfl

theorem newUserOf_Email (plan : user) : (newUserOf plan).Email = plan.Email := by
  unfold newUserOf; split <;> rfl

theorem newUserOf_Name (plan : user) : (newUserOf plan).Name = plan.Name := by
  unfold newUserOf; split <;> rfl

theorem newUserOf_Age (plan : user) : (newUserOf plan).Age = plan.Age := by
  unfold newUserOf; split <;> rfl

theorem newUserOf_Language (plan : user) :
    (newUserOf plan).Language = plan.Language.ValueString := by
  unfold newUserOf
  cases h : plan.Language <;>
    simp [basetypes.StringValue.IsUnknown, basetypes.StringValue.ValueString]

/-! ## `resource_user.go`: theorems -/

/-- C4: for a plan that decodes without error (into a response that carries no error), if
`CreateUser` succeeds and `ReadUser(plan.Email)` returns a user `p` and no error, `Create`
writes through `State.Set` the struct whose email, name, age, id and oidc_policy are the planned
values and whose date_joined and language are the known strings `p.DateJoined` and
`p.Language`; with `State.Set` reporting no error, the response diagnostics hold no error. -/
theorem Create_writes_plan_and_backend_values {Raw σ : Type} (fw : tfsdk.Codec Raw)
    (client : backend.Client σ) (s s1 s2 : σ) (req : resource.CreateRequest Raw)
    (resp : resource.Response Raw) (p : backend.User)
    (h0 : resp.Diagnostics.HasError = false)
    (hdec : (fw.Get req.Plan).1.HasError = false)
    (hcreate : client.CreateUser (newUserOf (fw.Get req.Plan).2) s = (none, s1))
    (hread : client.ReadUser (fw.Get req.Plan).2.Email s1 = ((some p, none), s2))
    (hset : (fw.Set resp.State
        { Email := (fw.Get req.Plan).2.Email, Name := (fw.Get req.Plan).2.Name,
          Age := (fw.Get req.Plan).2.Age, Id := (fw.Get req.Plan).2.Id,
          DateJoined := basetypes.StringValue.Known p.DateJoined,
          Language := basetypes.StringValue.Known p.Language,
          OidcPolicy := (fw.Get req.Plan).2.OidcPolicy }).1.HasError = false) :
    (resourceUser.Create fw client s req resp).resp.State =
      (fw.Set resp.State
        { Email := (fw.Get req.Plan).2.Email, Name := (fw.Get req.Plan).2.Name,
          Age := (fw.Get req.Plan).2.Age, Id := (fw.Get req.Plan).2.Id,
          DateJoined := basetypes.StringValue.Known p.DateJoined,
          Language := basetypes.StringValue.Known p.Language,
          OidcPolicy := (fw.Get req.Plan).2.OidcPolicy }).2 ∧
    (resourceUser.Create fw client s req resp).resp.Diagnostics.HasError = false := by
  have hentry := entry_ok _ _ h0 hdec
  rw [← newUserOf_Email] at hread
  rw [Create_succeeded fw client s s1 s2 req resp p hentry hcreate hread]
  refine ⟨rfl, ?_⟩
  exact entry_ok _ _ hentry hset

/-- Witness of C4 on the plan of `TestAccResourceUser1`: the state holds age 123, email
`example@example.com`, id `h`, name `Example Name`, and language `en` read back. -/
theorem Create_writes_plan_and_backend_values_witness :
    (resourceUser.Create sampleCodec sampleClient [] { Plan := some samplePlan }
        (freshResponse none)).resp.State = some sampleState ∧
    (resourceUser.Create sampleCodec sampleClient [] { Plan := some samplePlan }
        (freshResponse none)).resp.Diagnostics.HasError = false :=
  Create_writes_plan_and_backend_values sampleCodec sampleClient [] [sampleStored]
    [sampleStored] { Plan := some samplePlan } (freshResponse none) sampleStored
    rfl rfl (by decide) (by decide) rfl

/-- C7: for a prior state that decodes without error (into a response that carries no error),
if `ReadUser(state.Email)` returns a user `p` and no error, `Read` writes through `State.Set`
the struct with name, age, date_joined and language taken from `p` and with email, id and
oidc_policy as in the prior state. -/
theorem Read_copies_backend_user {Raw σ : Type} (fw : tfsdk.Codec Raw)
    (client : backend.Client σ) (s s1 : σ) (req : resource.ReadRequest Raw)
    (resp : resource.Response Raw) (p : backend.User)
    (h0 : resp.Diagnostics.HasError = false)
    (hdec : (fw.Get req.State).1.HasError = false)
    (hread : client.ReadUser (fw.Get req.State).2.Email s = ((some p, none), s1)) :
    (resourceUser.Read fw client s req resp).resp.State =
      (fw.Set resp.State
        { Email := (fw.Get req.State).2.Email, Name := p.Name, Age := p.Age,
          Id := (fw.Get req.State).2.Id,
          DateJoined := basetypes.StringValue.Known p.DateJoined,
          Language := basetypes.StringValue.Known p.Language,
          OidcPolicy := (fw.Get req.State).2.OidcPolicy }).2 := by
  rw [Read_succeeded fw client s s1 req resp p (entry_ok _ _ h0 hdec) hread]
  rfl

/-- Witness of C7: the prior state is that of `TestAccResourceUser1`, the backend holds a
user with another name, age and language; email, id and oidc_policy stay. -/
theorem Read_copies_backend_user_witness :
    (resourceUser.Read sampleCodec sampleClient [sampleChanged] { State := some sampleState }
        (freshResponse (some sampleState))).resp.State = some sampleRefreshed :=
  Read_copies_backend_user sampleCodec sampleClient [sampleChanged] [sampleChanged]
    { State := some sampleState } (freshResponse (some sampleState)) sampleChanged
    rfl rfl (by decide)

/-- C5: with a request that decodes without error (into a response that carries no error), a
backend call that returns an error makes the handler add an error diagnostic whose detail is the
error's message, leave the response state as on entry, and make no further backend call; this
for `CreateUser` and `ReadUser` in `Create`, `ReadUser` in `Read`, `UpdateUser` in `Update` and
`DeleteUser` in `Delete`.  When `ReadRegions` fails, `dataSourceRegionsRead` returns
`diag.FromErr` of the error and the resource data as on entry (neither id nor names set). -/
theorem backend_error_aborts {Raw σ : Type} (fw : tfsdk.Codec Raw) (client : backend.Client σ)
    (s : σ) (resp : resource.Response Raw)
    (creq : resource.CreateRequest Raw) (rreq : resource.ReadRequest Raw)
    (ureq : resource.UpdateRequest Raw) (dreq : resource.DeleteRequest Raw)
    (h0 : resp.Diagnostics.HasError = false)
    (hc : (fw.Get creq.Plan).1.HasError = false)
    (hr : (fw.Get rreq.State).1.HasError = false)
    (hu : (fw.Get ureq.Plan).1.HasError = false)
    (hd : (fw.Get dreq.State).1.HasError = false) :
    (∀ (msg : String) (s1 : σ),
      client.CreateUser (newUserOf (fw.Get creq.Plan).2) s = (some msg, s1) →
      NewErrorDiagnostic "Error creating user" msg
        ∈ (resourceUser.Create fw client s creq resp).resp.Diagnostics ∧
      (resourceUser.Create fw client s creq resp).resp.Diagnostics.HasError = true ∧
      (resourceUser.Create fw client s creq resp).resp.State = resp.State ∧
      (resourceUser.Create fw client s creq resp).calls
        = [backend.Call.CreateUser (newUserOf (fw.Get creq.Plan).2)]) ∧
    (∀ (p : Option backend.User) (msg : String) (s1 s2 : σ),
      client.CreateUser (newUserOf (fw.Get creq.Plan).2) s = (none, s1) →
      client.ReadUser (fw.Get creq.Plan).2.Email s1 = ((p, some msg), s2) →
      NewErrorDiagnostic "Error reading user" msg
        ∈ (resourceUser.Create fw client s creq resp).resp.Diagnostics ∧
      (resourceUser.Create fw client s creq resp).resp.Diagnostics.HasError = true ∧
      (resourceUser.Create fw client s creq resp).resp.State = resp.State ∧
      (resourceUser.Create fw client s creq resp).calls
        = [backend.Call.CreateUser (newUserOf (fw.Get creq.Plan).2),
           backend.Call.ReadUser (fw.Get creq.Plan).2.Email]) ∧
    (∀ (p : Option backend.User) (msg : String) (s1 : σ),
      client.ReadUser (fw.Get rreq.State).2.Email s = ((p, some msg), s1) →
      NewErrorDiagnostic "Error reading user" msg
        ∈ (resourceUser.Read fw client s rreq resp).resp.Diagnostics ∧
      (resourceUser.Read fw client s rreq resp).resp.Diagnostics.HasError = true ∧
      (resourceUser.Read fw client s rreq resp).resp.State = resp.State ∧
      (resourceUser.Read fw client s rreq resp).calls
        = [backend.Call.ReadUser (fw.Get rreq.State).2.Email]) ∧
    (∀ (msg : String) (s1 : σ),
      client.UpdateUser (newUserOf (fw.Get ureq.Plan).2) s = (some msg, s1) →
      NewErrorDiagnostic "Error updating user" msg
        ∈ (resourceUser.Update fw client s ureq resp).resp.Diagnostics ∧
      (resourceUser.Update fw client s ureq resp).resp.Diagnostics.HasError = true ∧
      (resourceUser.Update fw client s ureq resp).resp.State = resp.State ∧
      (resourceUser.Update fw client s ureq resp).calls
        = [backend.Call.UpdateUser (newUserOf (fw.Get ureq.Plan).2)]) ∧
    (∀ (msg : String) (s1 : σ),
      client.DeleteUser
        { Email := (fw.Get dreq.State).2.Email, Name := (fw.Get dreq.State).2.Name,
          Age := (fw.Get dreq.State).2.Age, DateJoined := "", Language := "" } s
        = (some msg, s1) →
      NewErrorDiagnostic "Error deleting user" msg
        ∈ (resourceUser.Delete fw client s dreq resp).resp.Diagnostics ∧
      (resourceUser.Delete fw client s dreq resp).resp.Diagnostics.HasError = true ∧
      (resourceUser.Delete fw client s dreq resp).resp.State = resp.State ∧
      (resourceUser.Delete fw client s dreq resp).calls
        = [backend.Call.DeleteUser
            { Email := (fw.Get dreq.State).2.Email, Name := (fw.Get dreq.State).2.Name,
              Age := (fw.Get dreq.State).2.Age, DateJoined := "", Language := "" }]) ∧
    (∀ (D ρ : Type) (rd : schema.ResourceData D)
      (ReadRegions : ρ → (GoSlice Region × error) × ρ) (st st1 : ρ) (d : D)
      (regions : GoSlice Region) (msg : String),
      ReadRegions st = ((regions, some msg), st1) →
      dataSourceRegionsRead rd ReadRegions st d
        = ([{ Severity := Severity.Error, Summary := msg, Detail := "" }], d, st1)) := by
  refine ⟨?_, ?_, ?_, ?_, ?_, ?_⟩
  · intro msg s1 h
    rw [Create_createUser_failed fw client s s1 creq resp msg (entry_ok _ _ h0 hc) h]
    exact ⟨mem_AddError _ _ _, HasError_AddError _ _ _, rfl, rfl⟩
  · intro p msg s1 s2 h1 h2
    rw [← newUserOf_Email] at h2
    rw [Create_readUser_failed fw client s s1 s2 creq resp p msg (entry_ok _ _ h0 hc) h1 h2]
    exact ⟨mem_AddError _ _ _, HasError_AddError _ _ _, rfl, by rw [newUserOf_Email]⟩
  · intro p msg s1 h
    rw [Read_readUser_failed fw client s s1 rreq resp p msg (entry_ok _ _ h0 hr) h]
    exact ⟨mem_AddError _ _ _, HasError_AddError _ _ _, rfl, rfl⟩
  · intro msg s1 h
    rw [Update_updateUser_failed fw client s s1 ureq resp msg (entry_ok _ _ h0 hu) h]
    exact ⟨mem_AddError _ _ _, HasError_AddError _ _ _, rfl, rfl⟩
  · intro msg s1 h
    rw [Delete_deleteUser_failed fw client s s1 dreq resp msg (entry_ok _ _ h0 hd) h]
    exact ⟨mem_AddError _ _ _, HasError_AddError _ _ _, rfl, rfl⟩
  · intro D ρ rd ReadRegions st st1 d regions msg h
    unfold dataSourceRegionsRead
    simp [h, diag.FromErr]

/-- Witness of C5 on backends whose calls fail with `backend down`: each handler reports the
message, keeps the state it was given and stops after the failed call. -/
theorem backend_error_aborts_witness :
    (NewErrorDiagnostic "Error creating user" "backend down"
        ∈ (resourceUser.Create sampleCodec failingClient [] { Plan := some samplePlan }
            (freshResponse none)).resp.Diagnostics ∧
      (resourceUser.Create sampleCodec failingClient [] { Plan := some samplePlan }
            (freshResponse none)).resp.State = none ∧
      (resourceUser.Create sampleCodec failingClient [] { Plan := some samplePlan }
            (freshResponse none)).calls = [backend.Call.CreateUser (newUserOf samplePlan)]) ∧
    (NewErrorDiagnostic "Error reading user" "backend down"
        ∈ (resourceUser.Create sampleCodec readFailingClient [] { Plan := some samplePlan }
            (freshResponse none)).resp.Diagnostics ∧
      (resourceUser.Create sampleCodec readFailingClient [] { Plan := some samplePlan }
            (freshResponse none)).resp.State = none ∧
      (resourceUser.Create sampleCodec readFailingClient [] { Plan := some samplePlan }
            (freshResponse none)).calls
        = [backend.Call.CreateUser (newUserOf samplePlan),
           backend.Call.ReadUser "example@example.com"]) ∧
    (NewErrorDiagnostic "Error reading user" "backend down"
        ∈ (resourceUser.Read sampleCodec failingClient [sampleStored]
            { State := some sampleState } (freshResponse (some sampleState))).resp.Diagnostics ∧
      (resourceUser.Read sampleCodec failingClient [sampleStored]
            { State := some sampleState } (freshResponse (some sampleState))).resp.State
        = some sampleState) ∧
    (NewErrorDiagnostic "Error updating user" "backend down"
        ∈ (resourceUser.Update sampleCodec failingClient [sampleStored]
            { Plan := some samplePlan, State := some sampleState }
            (freshResponse (some sampleState))).resp.Diagnostics ∧
      (resourceUser.Update sampleCodec failingClient [sampleStored]
            { Plan := some samplePlan, State := some sampleState }
            (freshResponse (some sampleState))).resp.State = some sampleState) ∧
    (NewErrorDiagnostic "Error deleting user" "backend down"
        ∈ (resourceUser.Delete sampleCodec failingClient [sampleStored]
            { State := some sampleState } (freshResponse (some sampleState))).resp.Diagnostics ∧
      (resourceUser.Delete sampleCodec failingClient [sampleStored]
            { State := some sampleState } (freshResponse (some sampleState))).resp.State
        = some sampleState) ∧
    dataSourceRegionsRead sampleResourceData failingReadRegions [] ("", none)
      = ([{ Severity := Severity.Error, Summary := "backend down", Detail := "" }],
          ("", none), []) :=
  have a := backend_error_aborts sampleCodec failingClient [] (freshResponse none)
    { Plan := some samplePlan } { State := some sampleState }
    { Plan := some samplePlan, State := some sampleState } { State := some sampleState }
    rfl rfl rfl rfl rfl
  have b := backend_error_aborts sampleCodec readFailingClient [] (freshResponse none)
    { Plan := some samplePlan } { State := some sampleState }
    { Plan := some samplePlan, State := some sampleState } { State := some sampleState }
    rfl rfl rfl rfl rfl
  have c := backend_error_aborts sampleCodec failingClient [sampleStored]
    (freshResponse (some sampleState))
    { Plan := some samplePlan } { State := some sampleState }
    { Plan := some samplePlan, State := some sampleState } { State := some sampleState }
    rfl rfl rfl rfl rfl
  have a1 := a.1 "backend down" [] rfl
  have b2 := b.2.1 none "backend down" [newUserOf samplePlan] [newUserOf samplePlan] rfl rfl
  have c3 := c.2.2.1 none "backend down" [sampleStored] rfl
  have c4 := c.2.2.2.1 "backend down" [sampleStored] rfl
  have c5 := c.2.2.2.2.1 "backend down" [sampleStored] rfl
  ⟨⟨a1.1, a1.2.2.1, a1.2.2.2⟩, ⟨b2.1, b2.2.2.1, b2.2.2.2⟩, ⟨c3.1, c3.2.2.1⟩, ⟨c4.1, c4.2.2.1⟩,
    ⟨c5.1, c5.2.2.1⟩,
    c.2.2.2.2.2 _ _ sampleResourceData failingReadRegions [] [] ("", none) none "backend down"
      rfl⟩

/-! ## `data_source_regions.go`: theorems -/

theorem regionNames_fold (xs : List Region) (acc : List String) :
    xs.foldl (fun names r => GoSlice.append names r.Name) (some acc)
      = some (acc ++ xs.map Region.Name) := by
  induction xs generalizing acc with
  | nil => simp
  | cons r rest ih =>
    simp only [List.foldl_cons, List.map_cons]
    have : GoSlice.append (some acc) r.Name = some (acc ++ [r.Name]) := rfl
    rw [this, ih]
    simp

theorem regionNames_eq (regions : GoSlice Region) :
    regionNames regions = some ((GoSlice.elems regions).map Region.Name) := by
  unfold regionNames
  rw [regionNames_fold]
  simp

/-- C6: when `ReadRegions` returns a region list and no error, `dataSourceRegionsRead` calls
`SetId` with `regions` and then `Set` with the key `names` and the non-nil slice of the
regions' `Name` fields, of the same length and in the same order (an empty or nil region list
gives the empty non-nil slice); the diagnostics are `diag.FromErr` of what `Set` returned, none
when `Set` succeeded. -/
theorem dataSourceRegionsRead_sets_names {D σ : Type} (rd : schema.ResourceData D)
    (ReadRegions : σ → (GoSlice Region × error) × σ) (s s1 : σ) (d : D)
    (regions : GoSlice Region)
    (hread : ReadRegions s = ((regions, none), s1)) :
    regionNames regions = some ((GoSlice.elems regions).map Region.Name) ∧
    ((GoSlice.elems regions).map Region.Name).length = (GoSlice.elems regions).length ∧
    (∀ i : Nat, ((GoSlice.elems regions).map Region.Name)[i]?
      = ((GoSlice.elems regions)[i]?).map Region.Name) ∧
    regionNames none = some [] ∧ regionNames (some []) = some [] ∧
    (dataSourceRegionsRead rd ReadRegions s d).2.1
      = (rd.Set (rd.SetId d "regions") "names"
          (some ((GoSlice.elems regions).map Region.Name))).1 ∧
    (dataSourceRegionsRead rd ReadRegions s d).1
      = diag.FromErr (rd.Set (rd.SetId d "regions") "names"
          (some ((GoSlice.elems regions).map Region.Name))).2 ∧
    ((rd.Set (rd.SetId d "regions") "names"
          (some ((GoSlice.elems regions).map Region.Name))).2 = none →
      (dataSourceRegionsRead rd ReadRegions s d).1 = []) ∧
    (dataSourceRegionsRead rd ReadRegions s d).2.2 = s1 := by
  have hmain : dataSourceRegionsRead rd ReadRegions s d
      = (diag.FromErr (rd.Set (rd.SetId d "regions") "names"
            (some ((GoSlice.elems regions).map Region.Name))).2,
          (rd.Set (rd.SetId d "regions") "names"
            (some ((GoSlice.elems regions).map Region.Name))).1, s1) := by
    unfold dataSourceRegionsRead
    simp only [hread, regionNames_eq]
    cases h : (rd.Set (rd.SetId d "regions") "names"
        (some ((GoSlice.elems regions).map Region.Name))).2 <;> simp [h, diag.FromErr]
  refine ⟨regionNames_eq regions, by simp, by simp, rfl, rfl, ?_, ?_, ?_, ?_⟩
  · rw [hmain]
  · rw [hmain]
  · intro h
    rw [hmain, h]
    rfl
  · rw [hmain]

/-- Witness of C6 on two regions: the id becomes `regions`, the names keep their order, and no
diagnostics are returned. -/
theorem dataSourceRegionsRead_sets_names_witness :
    dataSourceRegionsRead sampleResourceData sampleReadRegions
        [{ Name := "eu-west" }, { Name := "ap-south" }] ("", none)
      = ([], ("regions", some (some ["eu-west", "ap-south"])),
          [{ Name := "eu-west" }, { Name := "ap-south" }]) :=
  have h := dataSourceRegionsRead_sets_names sampleResourceData sampleReadRegions
    [{ Name := "eu-west" }, { Name := "ap-south" }] [{ Name := "eu-west" }, { Name := "ap-south" }]
    ("", none) (some [{ Name := "eu-west" }, { Name := "ap-south" }]) rfl
  Prod.ext (h.2.2.2.2.2.2.2.1 rfl) (Prod.ext h.2.2.2.2.2.1 h.2.2.2.2.2.2.2.2)

/-! ## `resource_user.go`: forwarding and the missing user -/

theorem Create_first_call {Raw σ : Type} (fw : tfsdk.Codec Raw) (client : backend.Client σ)
    (s : σ) (req : resource.CreateRequest Raw) (resp : resource.Response Raw)
    (hentry : (resp.Diagnostics.Append (fw.Get req.Plan).1).HasError = false) :
    (resourceUser.Create fw client s req resp).calls.head?
      = some (backend.Call.CreateUser (newUserOf (fw.Get req.Plan).2)) := by
  rcases hcu : client.CreateUser (newUserOf (fw.Get req.Plan).2) s with ⟨e, s1⟩
  cases e with
  | some msg => rw [Create_createUser_failed fw client s s1 req resp msg hentry hcu]; rfl
  | none =>
    rcases hru : client.ReadUser (newUserOf (fw.Get req.Plan).2).Email s1 with ⟨⟨p, e2⟩, s2⟩
    cases e2 with
    | some msg => rw [Create_readUser_failed fw client s s1 s2 req resp p msg hentry hcu hru]; rfl
    | none =>
      cases p with
      | none => rw [Create_user_not_found fw client s s1 s2 req resp hentry hcu hru]; rfl
      | some u => rw [Create_succeeded fw client s s1 s2 req resp u hentry hcu hru]; rfl

theorem Update_first_call {Raw σ : Type} (fw : tfsdk.Codec Raw) (client : backend.Client σ)
    (s : σ) (req : resource.UpdateRequest Raw) (resp : resource.Response Raw)
    (hentry : (resp.Diagnostics.Append (fw.Get req.Plan).1).HasError = false) :
    (resourceUser.Update fw client s req resp).calls.head?
      = some (backend.Call.UpdateUser (newUserOf (fw.Get req.Plan).2)) := by
  rcases hcu : client.UpdateUser (newUserOf (fw.Get req.Plan).2) s with ⟨e, s1⟩
  cases e with
  | some msg => rw [Update_updateUser_failed fw client s s1 req resp msg hentry hcu]; rfl
  | none => rw [Update_succeeded fw client s s1 req resp hentry hcu]; rfl

/-- C8: with a plan that decodes without error (into a response that carries no error), the
first backend call of `Create` is `CreateUser` and that of `Update` is `UpdateUser`, on a
`backend.User` whose email, name and age are the plan's and whose language is the plan's
language string when that is known and the empty string when it is unknown or null; when
`UpdateUser` succeeds, `Update` writes the decoded plan through `State.Set`. -/
theorem Create_Update_forward_plan {Raw σ : Type} (fw : tfsdk.Codec Raw)
    (client : backend.Client σ) (s : σ) (resp : resource.Response Raw)
    (creq : resource.CreateRequest Raw) (ureq : resource.UpdateRequest Raw)
    (h0 : resp.Diagnostics.HasError = false)
    (hc : (fw.Get creq.Plan).1.HasError = false)
    (hu : (fw.Get ureq.Plan).1.HasError = false) :
    (∃ u : backend.User,
      (resourceUser.Create fw client s creq resp).calls.head? = some (backend.Call.CreateUser u) ∧
      u.Email = (fw.Get creq.Plan).2.Email ∧ u.Name = (fw.Get creq.Plan).2.Name ∧
      u.Age = (fw.Get creq.Plan).2.Age ∧
      (∀ l : String, (fw.Get creq.Plan).2.Language = basetypes.StringValue.Known l →
        u.Language = l) ∧
      ((fw.Get creq.Plan).2.Language = basetypes.StringValue.Unknown ∨
        (fw.Get creq.Plan).2.Language = basetypes.StringValue.Null → u.Language = "")) ∧
    (∃ u : backend.User,
      (resourceUser.Update fw client s ureq resp).calls.head? = some (backend.Call.UpdateUser u) ∧
      u.Email = (fw.Get ureq.Plan).2.Email ∧ u.Name = (fw.Get ureq.Plan).2.Name ∧
      u.Age = (fw.Get ureq.Plan).2.Age ∧
      (∀ l : String, (fw.Get ureq.Plan).2.Language = basetypes.StringValue.Known l →
        u.Language = l) ∧
      ((fw.Get ureq.Plan).2.Language = basetypes.StringValue.Unknown ∨
        (fw.Get ureq.Plan).2.Language = basetypes.StringValue.Null → u.Language = "")) ∧
    (∀ s1 : σ, client.UpdateUser (newUserOf (fw.Get ureq.Plan).2) s = (none, s1) →
      (resourceUser.Update fw client s ureq resp).resp.State
        = (fw.Set resp.State (fw.Get ureq.Plan).2).2) := by
  have key : ∀ plan : user,
      (newUserOf plan).Email = plan.Email ∧ (newUserOf plan).Name = plan.Name ∧
      (newUserOf plan).Age = plan.Age ∧
      (∀ l : String, plan.Language = basetypes.StringValue.Known l →
        (newUserOf plan).Language = l) ∧
      (plan.Language = basetypes.StringValue.Unknown ∨
        plan.Language = basetypes.StringValue.Null → (newUserOf plan).Language = "") := by
    intro plan
    refine ⟨newUserOf_Email plan, newUserOf_Name plan, newUserOf_Age plan, ?_, ?_⟩
    · intro l hl
      rw [newUserOf_Language, hl]; rfl
    · intro h
      rw [newUserOf_Language]
      rcases h with h | h <;> rw [h] <;> rfl
  refine ⟨⟨_, Create_first_call fw client s creq resp (entry_ok _ _ h0 hc), key _⟩,
    ⟨_, Update_first_call fw client s ureq resp (entry_ok _ _ h0 hu), key _⟩, ?_⟩
  intro s1 h
  rw [Update_succeeded fw client s s1 ureq resp (entry_ok _ _ h0 hu) h]

/-- Witness of C8 on the plan of `TestAccResourceUser1`, whose language is unknown: the backend
receives the planned email, name and age and the empty language, and `Update` writes the plan. -/
theorem Create_Update_forward_plan_witness :
    (∃ u : backend.User,
      (resourceUser.Create sampleCodec sampleClient [] { Plan := some samplePlan }
        (freshResponse none)).calls.head? = some (backend.Call.CreateUser u) ∧
      u.Email = "example@example.com" ∧ u.Name = "Example Name" ∧ u.Age = 123 ∧
      u.Language = "") ∧
    (resourceUser.Update sampleCodec sampleClient [] { Plan := some samplePlan, State := none }
        (freshResponse none)).resp.State = some samplePlan :=
  have h := Create_Update_forward_plan sampleCodec sampleClient [] (freshResponse none)
    { Plan := some samplePlan } { Plan := some samplePlan, State := none } rfl rfl rfl
  ⟨h.1.elim (fun u hu =>
      ⟨u, hu.1, hu.2.1, hu.2.2.1, hu.2.2.2.1, hu.2.2.2.2.2 (Or.inl rfl)⟩),
    h.2.2 [] rfl⟩

/-- C9: with a request that decodes without error (into a response that carries no error), when
`ReadUser` returns no user and no error, `Read` keeps the response state and adds no diagnostic
of its own (with no decode diagnostics the response is as on entry), whereas `Create`, after a
successful `CreateUser`, adds the error `Error reading user` / `could not find user after it
was created` and keeps the response state. -/
theorem missing_user_Read_silent_Create_error {Raw σ : Type} (fw : tfsdk.Codec Raw)
    (client : backend.Client σ) (s : σ) (resp : resource.Response Raw)
    (creq : resource.CreateRequest Raw) (rreq : resource.ReadRequest Raw)
    (h0 : resp.Diagnostics.HasError = false)
    (hc : (fw.Get creq.Plan).1.HasError = false)
    (hr : (fw.Get rreq.State).1.HasError = false) :
    (∀ s1 : σ, client.ReadUser (fw.Get rreq.State).2.Email s = ((none, none), s1) →
      (resourceUser.Read fw client s rreq resp).resp.State = resp.State ∧
      (resourceUser.Read fw client s rreq resp).resp.Diagnostics
        = resp.Diagnostics.Append (fw.Get rreq.State).1 ∧
      (resourceUser.Read fw client s rreq resp).resp.Diagnostics.HasError = false ∧
      ((fw.Get rreq.State).1 = [] → (resourceUser.Read fw client s rreq resp).resp = resp)) ∧
    (∀ s1 s2 : σ, client.CreateUser (newUserOf (fw.Get creq.Plan).2) s = (none, s1) →
      client.ReadUser (fw.Get creq.Plan).2.Email s1 = ((none, none), s2) →
      (resourceUser.Create fw client s creq resp).resp.Diagnostics
        = (resp.Diagnostics.Append (fw.Get creq.Plan).1).AddError "Error reading user"
            "could not find user after it was created" ∧
      NewErrorDiagnostic "Error reading user" "could not find user after it was created"
        ∈ (resourceUser.Create fw client s creq resp).resp.Diagnostics ∧
      (resourceUser.Create fw client s creq resp).resp.Diagnostics.HasError = true ∧
      (resourceUser.Create fw client s creq resp).resp.State = resp.State) := by
  constructor
  · intro s1 h
    rw [Read_user_not_found fw client s s1 rreq resp (entry_ok _ _ h0 hr) h]
    refine ⟨rfl, rfl, entry_ok _ _ h0 hr, ?_⟩
    intro hnil
    simp only [hnil, Append_nil]
  · intro s1 s2 h1 h2
    rw [← newUserOf_Email] at h2
    rw [Create_user_not_found fw client s s1 s2 creq resp (entry_ok _ _ h0 hc) h1 h2]
    exact ⟨rfl, mem_AddError _ _ _, HasError_AddError _ _ _, rfl⟩

/-- Witness of C9 on a backend that finds no user: `Read` returns the response it was given,
`Create` returns the single error diagnostic and the state it was given. -/
theorem missing_user_Read_silent_Create_error_witness :
    (resourceUser.Read sampleCodec forgetfulClient [] { State := some sampleState }
        (freshResponse (some sampleState))).resp = freshResponse (some sampleState) ∧
    (resourceUser.Create sampleCodec forgetfulClient [] { Plan := some samplePlan }
        (freshResponse (some sampleState))).resp.Diagnostics
      = [NewErrorDiagnostic "Error reading user" "could not find user after it was created"] ∧
    (resourceUser.Create sampleCodec forgetfulClient [] { Plan := some samplePlan }
        (freshResponse (some sampleState))).resp.State = some sampleState :=
  have h := missing_user_Read_silent_Create_error sampleCodec forgetfulClient []
    (freshResponse (some sampleState)) { Plan := some samplePlan }
    { State := some sampleState } rfl rfl rfl
  ⟨(h.1 [] rfl).2.2.2 rfl, (h.2 [] [] rfl rfl).1, (h.2 [] [] rfl rfl).2.2.2⟩

/-! ## The `oidc_policy` default -/

theorem oidcPolicyDefault_value_types (name : String) :
    (GoMap.get oidcPolicyDefault.Elements name).map AttrValue.Type
      = GoMap.get oidcPolicyDefault.ElementType name := by
  by_cases h1 : "grant_access_session_revocation_api" = name
  · subst h1; rfl
  by_cases h2 : "grant_access_session_session_management_api" = name
  · subst h2; rfl
  by_cases h3 : "pairwise_identifier_user_type" = name
  · subst h3; rfl
  by_cases h4 : "ping_access_logout_capable" = name
  · subst h4; rfl
  by_cases h5 : "id_token_content_encryption_algorithm" = name
  · subst h5; rfl
  by_cases h6 : "id_token_encryption_algorithm" = name
  · subst h6; rfl
  by_cases h7 : "id_token_signing_algorithm" = name
  · subst h7; rfl
  by_cases h8 : "policy_group" = name
  · subst h8; rfl
  by_cases h9 : "sector_identifier_uri" = name
  · subst h9; rfl
  by_cases h10 : "logout_uris" = name
  · subst h10; rfl
  simp [GoMap.get, oidcPolicyDefault, DefaultObject, List.find?_cons,
    h1, h2, h3, h4, h5, h6, h7, h8, h9, h10]

theorem oidcPolicyDefault_schema_types (name : String) :
    (GoMap.get singleClientOIDCPolicy name).map schema.Attribute.GetType
      = GoMap.get oidcPolicyDefault.ElementType name := by
  by_cases h1 : "grant_access_session_revocation_api" = name
  · subst h1; rfl
  by_cases h2 : "grant_access_session_session_management_api" = name
  · subst h2; rfl
  by_cases h3 : "pairwise_identifier_user_type" = name
  · subst h3; rfl
  by_cases h4 : "ping_access_logout_capable" = name
  · subst h4; rfl
  by_cases h5 : "id_token_content_encryption_algorithm" = name
  · subst h5; rfl
  by_cases h6 : "id_token_encryption_algorithm" = name
  · subst h6; rfl
  by_cases h7 : "id_token_signing_algorithm" = name
  · subst h7; rfl
  by_cases h8 : "policy_group" = name
  · subst h8; rfl
  by_cases h9 : "sector_identifier_uri" = name
  · subst h9; rfl
  by_cases h10 : "logout_uris" = name
  · subst h10; rfl
  simp [GoMap.get, oidcPolicyDefault, DefaultObject, singleClientOIDCPolicy, List.find?_cons,
    h1, h2, h3, h4, h5, h6, h7, h8, h9, h10]

theorem oidcPolicyDefault_ObjectValue :
    types.ObjectValue oidcPolicyDefault.ElementType oidcPolicyDefault.Elements
      = (basetypes.ObjectValue.Known oidcPolicyDefault.ElementType oidcPolicyDefault.Elements,
          []) := by
  rfl

/-- C10: the default object of `oidc_policy` is well-formed.  `ElementType` and `Elements` have
the same ten distinct names; each element value has the type declared for its name, the four
bools being false, the five strings null and `logout_uris` a null list of string; the names and
types are those of the attributes of `singleClientOIDCPolicy()`; `types.ObjectValue` on them
gives a known, non-null object and no diagnostics, so that `PlanModifyObject` with this default
either leaves the response as given or sets empty diagnostics. -/
theorem oidcPolicyDefault_well_formed :
    (GoMap.keys oidcPolicyDefault.ElementType).length = 10 ∧
    (GoMap.keys oidcPolicyDefault.ElementType).Nodup ∧
    GoMap.keys oidcPolicyDefault.Elements = GoMap.keys oidcPolicyDefault.ElementType ∧
    (∀ name : String, (GoMap.get oidcPolicyDefault.Elements name).map AttrValue.Type
      = GoMap.get oidcPolicyDefault.ElementType name) ∧
    (GoMap.get oidcPolicyDefault.Elements "grant_access_session_revocation_api"
        = some (AttrValue.BoolV (basetypes.BoolValue.Known false)) ∧
      GoMap.get oidcPolicyDefault.Elements "grant_access_session_session_management_api"
        = some (AttrValue.BoolV (basetypes.BoolValue.Known false)) ∧
      GoMap.get oidcPolicyDefault.Elements "pairwise_identifier_user_type"
        = some (AttrValue.BoolV (basetypes.BoolValue.Known false)) ∧
      GoMap.get oidcPolicyDefault.Elements "ping_access_logout_capable"
        = some (AttrValue.BoolV (basetypes.BoolValue.Known false)) ∧
      GoMap.get oidcPolicyDefault.Elements "id_token_content_encryption_algorithm"
        = some (AttrValue.StringV basetypes.StringValue.Null) ∧
      GoMap.get oidcPolicyDefault.Elements "id_token_encryption_algorithm"
        = some (AttrValue.StringV basetypes.StringValue.Null) ∧
      GoMap.get oidcPolicyDefault.Elements "id_token_signing_algorithm"
        = some (AttrValue.StringV basetypes.StringValue.Null) ∧
      GoMap.get oidcPolicyDefault.Elements "policy_group"
        = some (AttrValue.StringV basetypes.StringValue.Null) ∧
      GoMap.get oidcPolicyDefault.Elements "sector_identifier_uri"
        = some (AttrValue.StringV basetypes.StringValue.Null) ∧
      GoMap.get oidcPolicyDefault.Elements "logout_uris"
        = some (AttrValue.ListNull AttrType.StringType)) ∧
    (GoMap.keys singleClientOIDCPolicy).Nodup ∧
    (GoMap.keys singleClientOIDCPolicy).Perm (GoMap.keys oidcPolicyDefault.ElementType) ∧
    (∀ name : String, (GoMap.get singleClientOIDCPolicy name).map schema.Attribute.GetType
      = GoMap.get oidcPolicyDefault.ElementType name) ∧
    types.ObjectValue oidcPolicyDefault.ElementType oidcPolicyDefault.Elements
      = (basetypes.ObjectValue.Known oidcPolicyDefault.ElementType oidcPolicyDefault.Elements,
          []) ∧
    (types.ObjectValue oidcPolicyDefault.ElementType oidcPolicyDefault.Elements).1.IsNull
      = false ∧
    (types.ObjectValue oidcPolicyDefault.ElementType oidcPolicyDefault.Elements).1.IsUnknown
      = false ∧
    (types.ObjectValue oidcPolicyDefault.ElementType oidcPolicyDefault.Elements).2.HasError
      = false ∧
    (∀ (req : planmodifier.ObjectRequest) (resp : planmodifier.ObjectResponse),
      oidcPolicyDefault.PlanModifyObject req resp = resp ∨
      ((oidcPolicyDefault.PlanModifyObject req resp).Diagnostics = [] ∧
        (oidcPolicyDefault.PlanModifyObject req resp).PlanValue
          = basetypes.ObjectValue.Known oidcPolicyDefault.ElementType
              oidcPolicyDefault.Elements)) := by
  refine ⟨rfl, by decide, rfl, oidcPolicyDefault_value_types,
    ⟨rfl, rfl, rfl, rfl, rfl, rfl, rfl, rfl, rfl, rfl⟩, by decide, by decide,
    oidcPolicyDefault_schema_types, oidcPolicyDefault_ObjectValue, ?_, ?_, ?_, ?_⟩
  · rw [oidcPolicyDefault_ObjectValue]; rfl
  · rw [oidcPolicyDefault_ObjectValue]; rfl
  · rw [oidcPolicyDefault_ObjectValue]; rfl
  · intro req resp
    unfold objectDefaultModifier.PlanModifyObject
    rw [oidcPolicyDefault_ObjectValue]
    by_cases hc : req.ConfigValue.IsNull = true
    · by_cases hp : (!req.PlanValue.IsUnknown && !req.PlanValue.IsNull) = true
      · left; simp [hc, hp]
      · right; simp [hc, hp]
    · left; simp [hc]

end Corner
